import Mathlib

/-!
Verification of the WeatherTools adapter (`weather-checkpoint.py`).

The program is a single-file glue layer exposing two tools, `get_alerts`
and `get_forecast`, which fetch JSON from the National Weather Service API
and reshape it into human-readable text.  We shallowly embed the Python
code: JSON values become an inductive `Json` type, Python dictionary
subscripting, `.get`, truthiness, membership and iteration become explicit
functions, and a raised Python exception becomes the `Except.error` branch
of `Except PyErr`.  The HTTP layer is abstracted as an oracle
`fetch : String → Option Json` giving, for each URL, the value
`make_nws_request` would return (`none` when the helper swallowed an
exception and returned Python `None`).
-/

/-- A JSON value as produced by `response.json()` in Python.  Numbers are
modelled as integers; none of the verified properties depends on the
rendering of non-integer numbers. -/
inductive Json where
  | null : Json
  | bool : Bool → Json
  | num : Int → Json
  | str : String → Json
  | arr : List Json → Json
  | obj : List (String × Json) → Json
deriving Repr

/-- A raised Python exception, as observable by the caller of a tool. -/
inductive PyErr where
  | keyError (key : String)
  | typeError (msg : String)
  | attributeError (msg : String)
deriving Repr, DecidableEq

/-- Python truthiness (`bool(x)`) for JSON values: `None`, `False`, `0`,
`""`, `[]` and `{}` are falsy, everything else truthy. -/
def truthy : Json → Bool
  | .null => false
  | .bool b => b
  | .num n => n != 0
  | .str s => s != ""
  | .arr xs => !xs.isEmpty
  | .obj kvs => !kvs.isEmpty

mutual

/-- Python `repr` of a JSON value (simplified: strings are quoted with a
single quote and not escaped; the verified properties never inspect the
repr of a string containing a quote). -/
def pyRepr : Json → String
  | .null => "None"
  | .bool true => "True"
  | .bool false => "False"
  | .num n => toString n
  | .str s => "'" ++ s ++ "'"
  | .arr xs => "[" ++ String.intercalate ", " (pyReprList xs) ++ "]"
  | .obj kvs => "\x7b" ++ String.intercalate ", " (pyReprPairs kvs) ++ "\x7d"

/-- `repr` of each element of a JSON list, in order. -/
def pyReprList : List Json → List String
  | [] => []
  | x :: xs => pyRepr x :: pyReprList xs

/-- `'key': repr(value)` for each entry of a JSON dictionary, in order. -/
def pyReprPairs : List (String × Json) → List String
  | [] => []
  | (k, v) :: kvs => ("'" ++ k ++ "': " ++ pyRepr v) :: pyReprPairs kvs

end

/-- Python `str()` of a JSON value, as interpolated by an f-string:
identity on strings, `repr`-like on everything else. -/
def pyStr : Json → String
  | .str s => s
  | j => pyRepr j

/-- Python subscripting `j[k]` with a string key: succeeds only on a
dictionary containing the key; raises `KeyError` on a dictionary without
it and `TypeError` on every non-dictionary. -/
def getItem : Json → String → Except PyErr Json
  | .obj kvs, k =>
      match kvs.lookup k with
      | some v => .ok v
      | none => .error (.keyError k)
  | .arr _, _ => .error (.typeError "list indices must be integers or slices, not str")
  | .str _, _ => .error (.typeError "string indices must be integers")
  | _, _ => .error (.typeError "object is not subscriptable")

/-- Python `j.get(k, default)`: only dictionaries have a `get` attribute;
any other value raises `AttributeError`. -/
def dictGet : Json → String → Json → Except PyErr Json
  | .obj kvs, k, d => .ok ((kvs.lookup k).getD d)
  | _, _, _ => .error (.attributeError "object has no attribute get")

/-- Substring containment, modelling Python `k in s` for strings. -/
def strContains (s k : String) : Bool :=
  (List.range (s.length + 1)).any fun i => k.isPrefixOf (s.drop i)

/-- Python membership `k in j` for a string `k`: key lookup on a
dictionary, element equality on a list, substring test on a string,
`TypeError` otherwise. -/
def pyMember (k : String) : Json → Except PyErr Bool
  | .obj kvs => .ok (kvs.lookup k).isSome
  | .arr xs => .ok (xs.any fun x => match x with | .str s => s == k | _ => false)
  | .str s => .ok (strContains s k)
  | _ => .error (.typeError "argument of type is not iterable")

/-- Python iteration over a JSON value (`for x in j`): the elements of a
list, the keys of a dictionary, the characters of a string; `TypeError`
otherwise. -/
def pyIter : Json → Except PyErr (List Json)
  | .arr xs => .ok xs
  | .obj kvs => .ok (kvs.map fun kv => .str kv.1)
  | .str s => .ok (s.toList.map fun c => .str (String.singleton c))
  | _ => .error (.typeError "object is not iterable")

/-- Python slicing `j[:5]` followed by iteration, as used on
`periods[:5]`: the first five elements of a list or characters of a
string; `TypeError` otherwise. -/
def pySliceFive : Json → Except PyErr (List Json)
  | .arr xs => .ok (xs.take 5)
  | .str s => .ok ((s.toList.take 5).map fun c => .str (String.singleton c))
  | _ => .error (.typeError "unhashable type slice")

/-- One upstream HTTP exchange as seen inside `make_nws_request`'s `try`
block: `none` models a transport-level failure (connection error or
timeout raised by the client); otherwise a status code and, when the body
parses as JSON, the parsed body (`body = none` models `response.json()`
raising on a malformed body). -/
structure NetResult where
  status : Nat
  body : Option Json

/-- `make_nws_request`: returns the parsed JSON body of a 2xx response and
`None` whenever anything inside the `try` block raised — transport
failure, `raise_for_status` on a non-2xx status, or a JSON parse error.
One request, no retries. -/
def make_nws_request (net : Option NetResult) : Option Json :=
  match net with
  | none => none
  | some r => if 200 ≤ r.status ∧ r.status < 300 then r.body else none

def NWS_API_BASE : String := "https://api.weather.gov"

/-- The URL `get_alerts` fetches for a state. -/
def alerts_url (state : String) : String :=
  NWS_API_BASE ++ "/alerts/active/area/" ++ state

/-- The URL `get_forecast` fetches first; the coordinates stand for the
decimal rendering of the two float parameters. -/
def points_url (latitude longitude : String) : String :=
  NWS_API_BASE ++ "/points/" ++ latitude ++ "," ++ longitude

/-- `format_alert`: reads `feature["properties"]` (unchecked subscript),
then substitutes each of five fields via `props.get` with its named
placeholder, producing the fixed five-line block of the source f-string
(leading and trailing newline included). -/
def format_alert (feature : Json) : Except PyErr String :=
  match getItem feature "properties" with
  | .error e => .error e
  | .ok props =>
    match dictGet props "event" (.str "Unknown") with
    | .error e => .error e
    | .ok event =>
      match dictGet props "areaDesc" (.str "Unknown") with
      | .error e => .error e
      | .ok area =>
        match dictGet props "severity" (.str "Unknown") with
        | .error e => .error e
        | .ok severity =>
          match dictGet props "description" (.str "No description available") with
          | .error e => .error e
          | .ok description =>
            match dictGet props "instruction" (.str "No specific instructions provided") with
            | .error e => .error e
            | .ok instruction =>
              .ok ("\nEvent: " ++ pyStr event ++
                   "\nArea: " ++ pyStr area ++
                   "\nSeverity: " ++ pyStr severity ++
                   "\nDescription: " ++ pyStr description ++
                   "\nInstructions: " ++ pyStr instruction ++ "\n")

/-- `get_alerts(state)`: fetch the alerts URL, return a fixed message when
the fetch failed, the body is falsy, or `"features"` is not in the body; a
second fixed message when `data["features"]` is falsy; otherwise the
`format_alert` blocks of all features joined by `"\n---\n"`.  `fetch`
gives the value `make_nws_request` returned for each URL. -/
def get_alerts (state : String) (fetch : String → Option Json) : Except PyErr String :=
  match fetch (alerts_url state) with
  | none => .ok "Unable to fetch alerts or no alerts found."
  | some data =>
    if !truthy data then .ok "Unable to fetch alerts or no alerts found."
    else
      match pyMember "features" data with
      | .error e => .error e
      | .ok mem =>
        if !mem then .ok "Unable to fetch alerts or no alerts found."
        else
          match getItem data "features" with
          | .error e => .error e
          | .ok features =>
            if !truthy features then .ok "No active alerts for this state."
            else
              match pyIter features with
              | .error e => .error e
              | .ok fs =>
                match fs.mapM format_alert with
                | .error e => .error e
                | .ok alerts => .ok (String.intercalate "\n---\n" alerts)

/-- The four-line block built for one forecast period inside
`get_forecast`'s loop (unchecked subscripts on the period record). -/
def format_period (period : Json) : Except PyErr String :=
  match getItem period "name" with
  | .error e => .error e
  | .ok name =>
    match getItem period "temperature" with
    | .error e => .error e
    | .ok temperature =>
      match getItem period "temperatureUnit" with
      | .error e => .error e
      | .ok unit =>
        match getItem period "windSpeed" with
        | .error e => .error e
        | .ok windSpeed =>
          match getItem period "windDirection" with
          | .error e => .error e
          | .ok windDirection =>
            match getItem period "detailedForecast" with
            | .error e => .error e
            | .ok detailed =>
              .ok ("\n" ++ pyStr name ++
                   ":\nTemperature: " ++ pyStr temperature ++ "°" ++ pyStr unit ++
                   "\nWind: " ++ pyStr windSpeed ++ " " ++ pyStr windDirection ++
                   "\nForecast: " ++ pyStr detailed ++ "\n")

/-- The second call to `make_nws_request` in `get_forecast`: its argument
`points_data["properties"]["forecast"]` is an arbitrary JSON value; a
non-string URL makes the HTTP client raise inside the helper's `try`
block, which the helper converts to `None`. -/
def fetch_json (fetch : String → Option Json) : Json → Option Json
  | .str u => fetch u
  | _ => none

/-- `get_forecast(latitude, longitude)`: fetch the points URL, return a
fixed message when absent or falsy; extract
`points_data["properties"]["forecast"]` (unchecked subscripts) and fetch
it, returning a second fixed message when absent or falsy; then format the
first five entries of `forecast_data["properties"]["periods"]` and join
them with `"\n---\n"`. -/
def get_forecast (latitude longitude : String) (fetch : String → Option Json) :
    Except PyErr String :=
  match fetch (points_url latitude longitude) with
  | none => .ok "Unable to fetch forecast data for this location."
  | some points_data =>
    if !truthy points_data then .ok "Unable to fetch forecast data for this location."
    else
      match getItem points_data "properties" with
      | .error e => .error e
      | .ok pprops =>
        match getItem pprops "forecast" with
        | .error e => .error e
        | .ok forecast_url =>
          match fetch_json fetch forecast_url with
          | none => .ok "Unable to fetch detailed forecast."
          | some forecast_data =>
            if !truthy forecast_data then .ok "Unable to fetch detailed forecast."
            else
              match getItem forecast_data "properties" with
              | .error e => .error e
              | .ok fprops =>
                match getItem fprops "periods" with
                | .error e => .error e
                | .ok periods =>
                  match pySliceFive periods with
                  | .error e => .error e
                  | .ok firstFive =>
                    match firstFive.mapM format_period with
                    | .error e => .error e
                    | .ok forecasts => .ok (String.intercalate "\n---\n" forecasts)

/-! ## Spec-side definitions

These follow the wording of the specification (§4.2, §4.4, §8) and are
compared against the embedded source functions in the theorems below. -/

/-- Whether a tool result is a returned string rather than a raised
exception. -/
def returnsString : Except PyErr String → Bool
  | .ok _ => true
  | .error _ => false

/-- A well-formed alert feature: a record whose `properties` key maps to a
record.  `format_alert` subscripts `properties` and calls `.get` on it, so
this is exactly the shape on which it cannot raise. -/
def featureWF : Json → Bool
  | .obj kvs =>
      match kvs.lookup "properties" with
      | some (.obj _) => true
      | _ => false
  | _ => false

/-- The `properties` record of a well-formed alert feature (empty for
ill-formed input; only used under `featureWF`). -/
def propsKvs : Json → List (String × Json)
  | .obj kvs =>
      match kvs.lookup "properties" with
      | some (.obj p) => p
      | _ => []
  | _ => []

/-- Spec §4.2: the value of a field when present, else its named
placeholder. -/
def fieldOr (props : List (String × Json)) (k dflt : String) : String :=
  match props.lookup k with
  | some v => pyStr v
  | none => dflt

/-- Spec §4.2: the fixed five-line alert block, each field substituted or
replaced by its placeholder when absent. -/
def specAlertBlock (props : List (String × Json)) : String :=
  "\nEvent: " ++ fieldOr props "event" "Unknown" ++
  "\nArea: " ++ fieldOr props "areaDesc" "Unknown" ++
  "\nSeverity: " ++ fieldOr props "severity" "Unknown" ++
  "\nDescription: " ++ fieldOr props "description" "No description available" ++
  "\nInstructions: " ++ fieldOr props "instruction" "No specific instructions provided" ++ "\n"

/-- A well-formed forecast period (spec §3, `ForecastPeriod`): a record
containing the six fields the formatting loop reads. -/
def periodWF : Json → Bool
  | .obj kvs =>
      (kvs.lookup "name").isSome && (kvs.lookup "temperature").isSome &&
      (kvs.lookup "temperatureUnit").isSome && (kvs.lookup "windSpeed").isSome &&
      (kvs.lookup "windDirection").isSome && (kvs.lookup "detailedForecast").isSome
  | _ => false

/-- The rendering of one field of a period record (empty for an absent
field; only used under `periodWF`). -/
def periodField (p : Json) (k : String) : String :=
  match p with
  | .obj kvs =>
      match kvs.lookup k with
      | some v => pyStr v
      | none => ""
  | _ => ""

/-- Spec §4.4: the four-line period block — name; temperature concatenated
with its unit; wind speed concatenated with wind direction; detailed
forecast text. -/
def specPeriodBlock (p : Json) : String :=
  "\n" ++ periodField p "name" ++
  ":\nTemperature: " ++ periodField p "temperature" ++ "°" ++ periodField p "temperatureUnit" ++
  "\nWind: " ++ periodField p "windSpeed" ++ " " ++ periodField p "windDirection" ++
  "\nForecast: " ++ periodField p "detailedForecast" ++ "\n"

/-- Well-formedness of a fetched alerts body under which `get_alerts` is
exception-free: absent, falsy, or a record whose `features` entry (if
any) is falsy or a list of well-formed features. -/
def alertsDataWF : Option Json → Bool
  | none => true
  | some d =>
      !truthy d ||
        (match d with
         | .obj kvs =>
             match kvs.lookup "features" with
             | none => true
             | some (.arr fs) => fs.all featureWF
             | some v => !truthy v
         | _ => false)

/-! ## Helper lemmas -/

lemma truthy_obj_of_lookup {kvs : List (String × Json)} {k : String} {v : Json}
    (h : kvs.lookup k = some v) : truthy (.obj kvs) = true := by
  cases kvs with
  | nil => simp [List.lookup] at h
  | cons a as => simp [truthy, List.isEmpty]

lemma pyStr_str (s : String) : pyStr (.str s) = s := rfl

lemma fieldOr_eq_getD (props : List (String × Json)) (k dflt : String) :
    fieldOr props k dflt = pyStr ((props.lookup k).getD (.str dflt)) := by
  unfold fieldOr
  cases props.lookup k with
  | none => rfl
  | some v => rfl

/-- On a well-formed feature, `format_alert` returns exactly the
spec-side block and raises nothing. -/
lemma format_alert_wf (f : Json) (h : featureWF f = true) :
    format_alert f = .ok (specAlertBlock (propsKvs f)) := by
  cases f with
  | obj kvs =>
    simp only [featureWF] at h
    cases hl : kvs.lookup "properties" with
    | none => rw [hl] at h; simp at h
    | some v =>
      cases v with
      | obj p =>
        simp only [format_alert, getItem, hl, dictGet, propsKvs, specAlertBlock,
          fieldOr_eq_getD]
      | null => rw [hl] at h; simp at h
      | bool b => rw [hl] at h; simp at h
      | num n => rw [hl] at h; simp at h
      | str s => rw [hl] at h; simp at h
      | arr xs => rw [hl] at h; simp at h
  | null => simp [featureWF] at h
  | bool b => simp [featureWF] at h
  | num n => simp [featureWF] at h
  | str s => simp [featureWF] at h
  | arr xs => simp [featureWF] at h

lemma mapM_format_alert_wf (fs : List Json) (h : fs.all featureWF = true) :
    fs.mapM format_alert = .ok (fs.map fun f => specAlertBlock (propsKvs f)) := by
  induction fs with
  | nil => rfl
  | cons f fs ih =>
    rw [List.all_cons, Bool.and_eq_true] at h
    rw [List.mapM_cons, format_alert_wf f h.1, ih h.2]
    rfl

/-- On a well-formed period record, the loop body returns exactly the
spec-side block and raises nothing. -/
lemma format_period_wf (p : Json) (h : periodWF p = true) :
    format_period p = .ok (specPeriodBlock p) := by
  cases p with
  | obj kvs =>
    simp only [periodWF, Bool.and_eq_true, Option.isSome_iff_exists] at h
    obtain ⟨⟨⟨⟨⟨⟨vn, hn⟩, ⟨vt, ht⟩⟩, ⟨vu, hu⟩⟩, ⟨vw, hw⟩⟩, ⟨vd, hd⟩⟩, ⟨vf, hf⟩⟩ := h
    simp only [format_period, getItem, hn, ht, hu, hw, hd, hf, specPeriodBlock,
      periodField]
  | null => simp [periodWF] at h
  | bool b => simp [periodWF] at h
  | num n => simp [periodWF] at h
  | str s => simp [periodWF] at h
  | arr xs => simp [periodWF] at h

lemma mapM_format_period_wf (ps : List Json) (h : ps.all periodWF = true) :
    ps.mapM format_period = .ok (ps.map specPeriodBlock) := by
  induction ps with
  | nil => rfl
  | cons p ps ih =>
    rw [List.all_cons, Bool.and_eq_true] at h
    rw [List.mapM_cons, format_period_wf p h.1, ih h.2]
    rfl

/-! ## Claim theorems -/

/-- C2: there are upstream responses that are valid JSON but lack the
expected nested keys on which the tool invocation raises instead of
degrading to a text message: an alerts feature without `properties`
(KeyError in `format_alert`), a points response without `properties`, and
a forecast response whose `properties` lacks `periods`. -/
theorem tools_fault_on_missing_nested_keys :
    get_alerts "TX" (fun _ => some (.obj [("features", .arr [.obj [("event", .str "x")]])]))
      = .error (.keyError "properties")
    ∧ get_forecast "39.0" "-77.0"
        (fun u => if u = points_url "39.0" "-77.0" then some (.obj [("title", .str "t")]) else none)
      = .error (.keyError "properties")
    ∧ get_forecast "39.0" "-77.0"
        (fun u =>
          if u = points_url "39.0" "-77.0" then
            some (.obj [("properties", .obj [("forecast", .str "FURL")])])
          else if u = "FURL" then some (.obj [("properties", .obj [("updated", .str "now")])])
          else none)
      = .error (.keyError "periods") :=
  ⟨rfl, rfl, rfl⟩

/-- C8: `make_nws_request` returns the parsed JSON body of a 2xx
response; on every failure — transport error or timeout (`net = none`),
non-2xx status, or malformed JSON body — it returns the absent sentinel
`none` instead of raising.  It consumes a single exchange: no retries. -/
theorem make_nws_request_absent_on_failure :
    (∀ r : NetResult, ∀ j : Json, 200 ≤ r.status → r.status < 300 →
        r.body = some j → make_nws_request (some r) = some j)
    ∧ make_nws_request none = none
    ∧ (∀ r : NetResult, ¬(200 ≤ r.status ∧ r.status < 300) →
        make_nws_request (some r) = none)
    ∧ (∀ r : NetResult, r.body = none → make_nws_request (some r) = none) := by
  refine ⟨?_, rfl, ?_, ?_⟩
  · intro r j h1 h2 hb
    simp [make_nws_request, h1, h2, hb]
  · intro r h
    simp [make_nws_request, h]
  · intro r h
    by_cases hs : 200 ≤ r.status ∧ r.status < 300 <;>
      simp [make_nws_request, hs, h]

/-- Witness for C8 at concrete exchanges: a 200 response with body,
transport failure, a 500 status, and a 2xx response whose body failed to
parse. -/
theorem make_nws_request_absent_on_failure_witness :
    make_nws_request (some ⟨200, some .null⟩) = some .null
    ∧ make_nws_request none = none
    ∧ make_nws_request (some ⟨500, some .null⟩) = none
    ∧ make_nws_request (some ⟨204, none⟩) = none :=
  ⟨make_nws_request_absent_on_failure.1 ⟨200, some .null⟩ .null (by decide) (by decide) rfl,
   make_nws_request_absent_on_failure.2.1,
   make_nws_request_absent_on_failure.2.2.1 ⟨500, some .null⟩ (by decide),
   make_nws_request_absent_on_failure.2.2.2 ⟨204, none⟩ rfl⟩

/-- C9: both tools are deterministic functions of their inputs and of the
fetched data — two invocations with identical inputs and identical
upstream responses at every fetch produce identical output. -/
theorem tools_deterministic (s₁ s₂ lat₁ lat₂ lon₁ lon₂ : String)
    (f₁ f₂ : String → Option Json)
    (hs : s₁ = s₂) (hlat : lat₁ = lat₂) (hlon : lon₁ = lon₂)
    (hf : ∀ u, f₁ u = f₂ u) :
    get_alerts s₁ f₁ = get_alerts s₂ f₂
    ∧ get_forecast lat₁ lon₁ f₁ = get_forecast lat₂ lon₂ f₂ := by
  have hfe : f₁ = f₂ := funext hf
  subst hs hlat hlon hfe
  exact ⟨rfl, rfl⟩

/-- Witness for C9 at a concrete state, coordinate pair and fetch
oracle. -/
theorem tools_deterministic_witness :
    get_alerts "CA" (fun _ => some (.obj [("features", .arr [])]))
      = get_alerts "CA" (fun _ => some (.obj [("features", .arr [])]))
    ∧ get_forecast "39.0" "-77.0" (fun _ => some (.obj [("features", .arr [])]))
      = get_forecast "39.0" "-77.0" (fun _ => some (.obj [("features", .arr [])])) :=
  tools_deterministic "CA" "CA" "39.0" "39.0" "-77.0" "-77.0" _ _ rfl rfl rfl
    (fun _ => rfl)

/-- C4: when the fetched alerts body is a record whose `features` entry is
the empty list, `get_alerts` returns exactly the fixed no-alerts
message. -/
theorem no_active_alerts_on_empty_features (state : String)
    (fetch : String → Option Json) (kvs : List (String × Json))
    (h1 : fetch (alerts_url state) = some (.obj kvs))
    (h2 : kvs.lookup "features" = some (.arr [])) :
    get_alerts state fetch = .ok "No active alerts for this state." := by
  have ht := truthy_obj_of_lookup h2
  have hne : kvs ≠ [] := by
    intro e
    subst e
    simp [List.lookup] at h2
  simp [get_alerts, h1, ht, pyMember, h2, getItem, truthy, hne]

/-- Witness for C4: the spec's end-to-end example, `get_alerts("XX")` with
upstream body a record with an empty `features` list. -/
theorem no_active_alerts_on_empty_features_witness :
    get_alerts "XX" (fun _ => some (.obj [("features", .arr [])]))
      = .ok "No active alerts for this state." :=
  no_active_alerts_on_empty_features "XX" (fun _ => some (.obj [("features", .arr [])]))
    [("features", .arr [])] rfl rfl

/-- C7 counterexample: a feature record that does contain the
`properties` key, but mapped to a string, makes `format_alert` raise
`AttributeError` (strings have no `.get`) rather than return the
five-line block. -/
theorem format_alert_raises_on_string_properties :
    format_alert (.obj [("properties", .str "oops")])
      = .error (.attributeError "object has no attribute get") :=
  rfl

/-- C7 (amended): for every alert feature record whose `properties` key
maps to a record, `format_alert` returns the fixed five-line block,
substituting each of `event`, `areaDesc`, `severity`, `description`,
`instruction` by its value when present and by its named placeholder when
absent. -/
theorem format_alert_five_line_block (f : Json) (h : featureWF f = true) :
    format_alert f = .ok (specAlertBlock (propsKvs f)) :=
  format_alert_wf f h

/-- Witness for C7 at a concrete feature with one present and four absent
fields. -/
theorem format_alert_five_line_block_witness :
    format_alert (.obj [("properties", .obj [("severity", .str "Minor")])])
      = .ok (specAlertBlock (propsKvs (.obj [("properties", .obj [("severity", .str "Minor")])]))) :=
  format_alert_five_line_block (.obj [("properties", .obj [("severity", .str "Minor")])]) rfl

/-- C3: every fetch failure yields the corresponding fixed message — the
alerts fetch absent, or the alerts body a record without a `features`
entry, gives "Unable to fetch alerts or no alerts found."; the points
fetch absent gives "Unable to fetch forecast data for this location.";
the subsequent forecast fetch absent gives "Unable to fetch detailed
forecast." -/
theorem fixed_failure_messages :
    (∀ (state : String) (fetch : String → Option Json),
        fetch (alerts_url state) = none →
        get_alerts state fetch = .ok "Unable to fetch alerts or no alerts found.")
    ∧ (∀ (state : String) (fetch : String → Option Json) (kvs : List (String × Json)),
        fetch (alerts_url state) = some (.obj kvs) →
        kvs.lookup "features" = none →
        get_alerts state fetch = .ok "Unable to fetch alerts or no alerts found.")
    ∧ (∀ (lat lon : String) (fetch : String → Option Json),
        fetch (points_url lat lon) = none →
        get_forecast lat lon fetch = .ok "Unable to fetch forecast data for this location.")
    ∧ (∀ (lat lon : String) (fetch : String → Option Json) (pd pprops url : Json),
        fetch (points_url lat lon) = some pd →
        truthy pd = true →
        getItem pd "properties" = .ok pprops →
        getItem pprops "forecast" = .ok url →
        fetch_json fetch url = none →
        get_forecast lat lon fetch = .ok "Unable to fetch detailed forecast.") := by
  refine ⟨?_, ?_, ?_, ?_⟩
  · intro state fetch h
    simp [get_alerts, h]
  · intro state fetch kvs h1 h2
    cases kvs with
    | nil => simp [get_alerts, h1, truthy]
    | cons a as => simp [get_alerts, h1, truthy, pyMember, h2]
  · intro lat lon fetch h
    simp [get_forecast, h]
  · intro lat lon fetch pd pprops url h1 h2 h3 h4 h5
    simp [get_forecast, h1, h2, h3, h4, h5]

/-- Witness for C3: each fixed message at a concrete invocation — absent
alerts fetch, alerts body without `features`, absent points fetch, and
absent forecast fetch after a successful points fetch. -/
theorem fixed_failure_messages_witness :
    get_alerts "WA" (fun _ => none) = .ok "Unable to fetch alerts or no alerts found."
    ∧ get_alerts "OR" (fun _ => some (.obj [("type", .str "FeatureCollection")]))
      = .ok "Unable to fetch alerts or no alerts found."
    ∧ get_forecast "39.0" "-77.0" (fun _ => none)
      = .ok "Unable to fetch forecast data for this location."
    ∧ get_forecast "40.0" "-75.0"
        (fun u =>
          if u = points_url "40.0" "-75.0" then
            some (.obj [("properties", .obj [("forecast", .str "FURL2")])])
          else none)
      = .ok "Unable to fetch detailed forecast." :=
  ⟨fixed_failure_messages.1 "WA" (fun _ => none) rfl,
   fixed_failure_messages.2.1 "OR" (fun _ => some (.obj [("type", .str "FeatureCollection")]))
     [("type", .str "FeatureCollection")] rfl rfl,
   fixed_failure_messages.2.2.1 "39.0" "-77.0" (fun _ => none) rfl,
   fixed_failure_messages.2.2.2 "40.0" "-75.0" _
     (.obj [("properties", .obj [("forecast", .str "FURL2")])])
     (.obj [("forecast", .str "FURL2")]) (.str "FURL2") rfl rfl rfl rfl rfl⟩

/-- C5 counterexample: an alerts response with one feature that has a
`properties` key mapped to a number makes `get_alerts` raise
`AttributeError`, so no joined string is returned. -/
theorem get_alerts_raises_on_nonrecord_properties :
    get_alerts "FL" (fun _ => some (.obj [("features", .arr [.obj [("properties", .num 7)]])]))
      = .error (.attributeError "object has no attribute get") :=
  rfl

/-- C5 (amended): for an alerts body whose `features` entry is a
non-empty list of features each of whose `properties` key maps to a
record, `get_alerts` returns exactly the per-feature five-line blocks —
present fields verbatim, named placeholders for absent ones — joined by
the separator "\n---\n". -/
theorem get_alerts_joins_formatted_features (state : String)
    (fetch : String → Option Json) (kvs : List (String × Json)) (fs : List Json)
    (h1 : fetch (alerts_url state) = some (.obj kvs))
    (h2 : kvs.lookup "features" = some (.arr fs))
    (h3 : fs ≠ [])
    (h4 : fs.all featureWF = true) :
    get_alerts state fetch =
      .ok (String.intercalate "\n---\n" (fs.map fun f => specAlertBlock (propsKvs f))) := by
  have ht := truthy_obj_of_lookup h2
  have hne : kvs ≠ [] := by
    intro e
    subst e
    simp [List.lookup] at h2
  have hm : List.mapM.loop format_alert fs []
      = Except.ok (fs.map fun f => specAlertBlock (propsKvs f)) :=
    mapM_format_alert_wf fs h4
  simp [get_alerts, h1, ht, hne, pyMember, h2, getItem, truthy, h3, pyIter, hm]

/-- Witness for C5: two features, one with every field present and one
with every field absent. -/
theorem get_alerts_joins_formatted_features_witness :
    get_alerts "CO"
      (fun _ => some (.obj [("features", .arr
        [.obj [("properties", .obj
           [("event", .str "Flood Warning"), ("areaDesc", .str "Denver"),
            ("severity", .str "Severe"), ("description", .str "Heavy rain."),
            ("instruction", .str "Move to higher ground.")])],
         .obj [("properties", .obj [])]])]))
      = .ok (String.intercalate "\n---\n"
          ([.obj [("properties", .obj
              [("event", .str "Flood Warning"), ("areaDesc", .str "Denver"),
               ("severity", .str "Severe"), ("description", .str "Heavy rain."),
               ("instruction", .str "Move to higher ground.")])],
            .obj [("properties", .obj [])]].map fun f => specAlertBlock (propsKvs f))) :=
  get_alerts_joins_formatted_features "CO" _ _ _ rfl rfl (List.cons_ne_nil _ _) rfl

/-- C6: for a reachable forecast response whose `properties.periods` list
has M entries, the first min(M,5) of them being period records with the
six formatted fields (spec §3, `ForecastPeriod`), `get_forecast` returns
exactly those min(M,5) four-line blocks, in the original order, joined by
"\n---\n": name; temperature concatenated with its unit; wind speed
concatenated with wind direction; detailed forecast verbatim. -/
theorem get_forecast_first_five_periods (lat lon : String)
    (fetch : String → Option Json) (pd pprops url fd fprops : Json) (periods : List Json)
    (h1 : fetch (points_url lat lon) = some pd)
    (h2 : truthy pd = true)
    (h3 : getItem pd "properties" = .ok pprops)
    (h4 : getItem pprops "forecast" = .ok url)
    (h5 : fetch_json fetch url = some fd)
    (h6 : truthy fd = true)
    (h7 : getItem fd "properties" = .ok fprops)
    (h8 : getItem fprops "periods" = .ok (.arr periods))
    (h9 : (periods.take 5).all periodWF = true) :
    get_forecast lat lon fetch =
      .ok (String.intercalate "\n---\n" ((periods.take 5).map specPeriodBlock)) := by
  have hm : List.mapM.loop format_period (periods.take 5) []
      = Except.ok ((periods.take 5).map specPeriodBlock) :=
    mapM_format_period_wf _ h9
  simp [get_forecast, h1, h2, h3, h4, h5, h6, h7, h8, pySliceFive, hm]

/-- The six periods of the C6 witness: the first five are well-formed
records, the sixth is not and is never reached. -/
def sixPeriods : List Json :=
  [.obj [("name", .str "P1"), ("temperature", .num 61),
         ("temperatureUnit", .str "F"), ("windSpeed", .str "5 mph"),
         ("windDirection", .str "NW"), ("detailedForecast", .str "Clear.")],
   .obj [("name", .str "P2"), ("temperature", .num 48),
         ("temperatureUnit", .str "F"), ("windSpeed", .str "7 mph"),
         ("windDirection", .str "N"), ("detailedForecast", .str "Cool.")],
   .obj [("name", .str "P3"), ("temperature", .num 66),
         ("temperatureUnit", .str "F"), ("windSpeed", .str "2 mph"),
         ("windDirection", .str "E"), ("detailedForecast", .str "Sunny.")],
   .obj [("name", .str "P4"), ("temperature", .num 50),
         ("temperatureUnit", .str "F"), ("windSpeed", .str "9 mph"),
         ("windDirection", .str "S"), ("detailedForecast", .str "Windy.")],
   .obj [("name", .str "P5"), ("temperature", .num 70),
         ("temperatureUnit", .str "F"), ("windSpeed", .str "4 mph"),
         ("windDirection", .str "W"), ("detailedForecast", .str "Warm.")],
   .null]

/-- The forecast body of the C6 witness. -/
def sixPeriodBody : Json := .obj [("properties", .obj [("periods", .arr sixPeriods)])]

/-- The points body of the C6 witness, locating the forecast at "FURL". -/
def sixPeriodPoints : Json := .obj [("properties", .obj [("forecast", .str "FURL")])]

/-- The fetch oracle of the C6 witness. -/
def sixPeriodFetch : String → Option Json :=
  fun u => if u = "FURL" then some sixPeriodBody else some sixPeriodPoints

/-- Witness for C6: six periods, of which only the first five — all
well-formed records — are formatted; the ill-formed sixth is never
touched. -/
theorem get_forecast_first_five_periods_witness :
    get_forecast "39.0" "-77.0" sixPeriodFetch
      = .ok (String.intercalate "\n---\n"
          (List.map specPeriodBlock (List.take 5 sixPeriods))) :=
  get_forecast_first_five_periods "39.0" "-77.0" sixPeriodFetch sixPeriodPoints
    (.obj [("forecast", .str "FURL")]) (.str "FURL") sixPeriodBody
    (.obj [("periods", .arr sixPeriods)]) sixPeriods
    rfl rfl rfl rfl rfl rfl rfl rfl rfl

/-- C1 counterexample: a valid JSON alerts response whose `features`
contains a record lacking the `properties` key makes `get_alerts` raise
`KeyError` to the caller instead of returning a string. -/
theorem get_alerts_raises_on_feature_without_properties :
    get_alerts "NY" (fun _ => some (.obj [("features", .arr [.obj [("id", .str "abc")]])]))
      = .error (.keyError "properties") :=
  rfl

/-- C1 (amended): for every input state and every upstream alerts
response that is absent, falsy, or a record whose `features` entry — if
present — is falsy or a list of features each of whose `properties` key
maps to a record, `get_alerts` returns a string and raises nothing;
every failure path yields a text message.  A response with a feature
lacking a record-valued `properties` may instead fault the invocation. -/
theorem get_alerts_returns_string_on_wf_data (state : String)
    (fetch : String → Option Json)
    (h : alertsDataWF (fetch (alerts_url state)) = true) :
    returnsString (get_alerts state fetch) = true := by
  cases hd : fetch (alerts_url state) with
  | none => simp [get_alerts, hd, returnsString]
  | some d =>
    rw [hd] at h
    simp only [alertsDataWF, Bool.or_eq_true, Bool.not_eq_true'] at h
    rcases h with h | h
    · simp [get_alerts, hd, h, returnsString]
    · cases d with
      | null => simp at h
      | bool b => simp at h
      | num n => simp at h
      | str s => simp at h
      | arr xs => simp at h
      | obj kvs =>
        dsimp only at h
        cases ht : truthy (Json.obj kvs) with
        | false => simp [get_alerts, hd, ht, returnsString]
        | true =>
          have hke : kvs.isEmpty = false := by simpa [truthy] using ht
          cases hl : kvs.lookup "features" with
          | none => simp [get_alerts, hd, ht, hke, pyMember, hl, returnsString]
          | some v =>
            rw [hl] at h
            cases v with
            | arr fs =>
              dsimp only at h
              by_cases hfs : fs = []
              · subst hfs
                simp [get_alerts, hd, ht, hke, pyMember, hl, getItem, truthy, returnsString]
              · have hm : List.mapM.loop format_alert fs []
                    = Except.ok (fs.map fun f => specAlertBlock (propsKvs f)) :=
                  mapM_format_alert_wf fs h
                simp [get_alerts, hd, ht, hke, pyMember, hl, getItem, truthy, hfs, pyIter,
                  hm, returnsString]
            | null =>
              simp [get_alerts, hd, ht, hke, pyMember, hl, getItem, truthy, returnsString]
            | bool b =>
              have hv : truthy (Json.bool b) = false := by simpa [truthy] using h
              simp [get_alerts, hd, ht, hke, pyMember, hl, getItem, hv, returnsString]
            | num n =>
              have hv : truthy (Json.num n) = false := by simpa [truthy] using h
              simp [get_alerts, hd, ht, hke, pyMember, hl, getItem, hv, returnsString]
            | str s =>
              have hv : truthy (Json.str s) = false := by simpa [truthy] using h
              simp [get_alerts, hd, ht, hke, pyMember, hl, getItem, hv, returnsString]
            | obj kvs2 =>
              have hv : truthy (Json.obj kvs2) = false := by simpa [truthy] using h
              simp [get_alerts, hd, ht, hke, pyMember, hl, getItem, hv, returnsString]

/-- Witness for C1 at a concrete well-formed response with one feature. -/
theorem get_alerts_returns_string_on_wf_data_witness :
    alertsDataWF (some (.obj [("features",
        .arr [.obj [("properties", .obj [("event", .str "Storm")])]])])) = true
    ∧ returnsString (get_alerts "NV" (fun _ => some (.obj [("features",
        .arr [.obj [("properties", .obj [("event", .str "Storm")])]])]))) = true :=
  ⟨rfl,
   get_alerts_returns_string_on_wf_data "NV"
     (fun _ => some (.obj [("features",
        .arr [.obj [("properties", .obj [("event", .str "Storm")])]])])) rfl⟩

/-- C10: when both fetches succeed with truthy, well-formed bodies but
`properties.periods` is the empty list, `get_forecast` returns the empty
string — the join of zero blocks — and not one of the fixed failure
messages. -/
theorem get_forecast_empty_periods_empty_string (lat lon : String)
    (fetch : String → Option Json) (pd pprops url fd fprops : Json)
    (h1 : fetch (points_url lat lon) = some pd)
    (h2 : truthy pd = true)
    (h3 : getItem pd "properties" = .ok pprops)
    (h4 : getItem pprops "forecast" = .ok url)
    (h5 : fetch_json fetch url = some fd)
    (h6 : truthy fd = true)
    (h7 : getItem fd "properties" = .ok fprops)
    (h8 : getItem fprops "periods" = .ok (.arr [])) :
    get_forecast lat lon fetch = .ok "" := by
  have hm : List.mapM.loop format_period ([] : List Json) []
      = Except.ok (([] : List Json).map specPeriodBlock) :=
    mapM_format_period_wf [] rfl
  simp [get_forecast, h1, h2, h3, h4, h5, h6, h7, h8, pySliceFive, hm,
    String.intercalate]

/-- Witness for C10 at a concrete pair of bodies with an empty periods
list. -/
theorem get_forecast_empty_periods_empty_string_witness :
    get_forecast "20.0" "-155.0"
      (fun u =>
        if u = "EMPTYURL" then some (.obj [("properties", .obj [("periods", .arr [])])])
        else some (.obj [("properties", .obj [("forecast", .str "EMPTYURL")])]))
      = .ok "" :=
  get_forecast_empty_periods_empty_string "20.0" "-155.0"
    (fun u =>
      if u = "EMPTYURL" then some (.obj [("properties", .obj [("periods", .arr [])])])
      else some (.obj [("properties", .obj [("forecast", .str "EMPTYURL")])]))
    (.obj [("properties", .obj [("forecast", .str "EMPTYURL")])])
    (.obj [("forecast", .str "EMPTYURL")]) (.str "EMPTYURL")
    (.obj [("properties", .obj [("periods", .arr [])])])
    (.obj [("periods", .arr [])])
    rfl rfl rfl rfl rfl rfl rfl rfl
